import Mathlib

/-!
Shallow embedding of the request-lifecycle and shutdown-coordination core of
`src/td/telegram/Td.cpp`: the `Td` façade (admission gate, pending request set,
result-handler dispatch table, dual-refcount teardown) and the
`RequestActor`/`RequestOnceActor` executor framework.

Machine integers of the source (`uint64` correlation ids, `int` retry counters
and reference counts) are modelled as `Nat`/`Int`; the values involved are tiny,
far from any wrap-around. The containers `request_set_` (a standard set of
`uint64`) and `result_handlers_` (`std::vector<std::pair<uint64, handler>>`) are
modelled as lists; set insertion is guarded on membership, matching set
semantics. A C++ `CHECK` (fatal assertion) is modelled by returning `none`.
-/

namespace Td

/-- An error object `td_api::error` / `Status` payload: code and message. -/
structure TdError where
  code : Int
  message : String
deriving DecidableEq, Repr

/-- Lifecycle states of the façade (`Td::State`). -/
inductive State
  | WaitParameters
  | Decrypt
  | Run
  | Close
deriving DecidableEq, Repr

/-- The `td_api` objects the modelled code paths construct or inspect.
All remaining object kinds are collapsed into `other`. -/
inductive ApiObject
  | ok
  | error (code : Int) (message : String)
  | authorizationStateWaitTdlibParameters
  | authorizationStateWaitEncryptionKey (is_encrypted : Bool)
  | authorizationStateClosing
  | authorizationStateClosed
  | other (tag : Nat)
deriving DecidableEq, Repr

/-- The `td_api` function tags the admission gate (`Td::request`) inspects by
`get_id()`; arguments not consulted by the gate are elided and every other
function is collapsed into `other`. -/
inductive ApiFunction
  | getAuthorizationState
  | setTdlibParameters
  | checkDatabaseEncryptionKey (encryption_key : String)
  | setDatabaseEncryptionKey (new_encryption_key : String)
  | close
  | destroy
  | other (tag : Nat)
deriving DecidableEq, Repr

/-- One delivery through the client callback (`callback_->on_result` /
`callback_->on_error`). -/
inductive CallbackEvent
  | on_result (id : Nat) (object : ApiObject)
  | on_error (id : Nat) (error : TdError)
deriving DecidableEq, Repr

/-- The façade state: the fields of class `Td` the modelled operations read or
write. Result handlers are abstract tokens (`Nat`). The many collaborator-manager
fields only ever reset during teardown are elided. -/
structure TdState where
  request_set : List Nat
  result_handlers : List (Nat × Nat)
  state : State
  close_flag : Nat
  destroy_flag : Bool
  request_actor_refcnt : Int
  actor_refcnt : Int
  is_online : Bool
  encryption_is_encrypted : Bool
deriving DecidableEq, Repr

/-- Set insertion (`request_set_.insert(id)`): adds `id` when absent. -/
def setInsert (l : List Nat) (id : Nat) : List Nat :=
  if id ∈ l then l else l ++ [id]

/-- Model of `Td::send_result`: delivers `object` for request `id` when `id == 0` or
erasing `id` from `request_set_` succeeds; a null `object` is replaced by a
404 "Not Found" error object. Returns the new state and the delivery, if any. -/
def send_result (s : TdState) (id : Nat) (object : Option ApiObject) :
    TdState × Option CallbackEvent :=
  let s' := if id = 0 then s else { s with request_set := s.request_set.erase id }
  if id = 0 ∨ id ∈ s.request_set then
    (s', some (.on_result id (object.getD (.error 404 "Not Found"))))
  else
    (s', none)

/-- Model of `Td::send_error_impl`: `CHECK(id != 0)` is modelled by `none` (fatal
assertion); otherwise delivers `error` exactly when erasing `id` from
`request_set_` succeeds. -/
def send_error_impl (s : TdState) (id : Nat) (error : TdError) :
    Option (TdState × Option CallbackEvent) :=
  if id = 0 then none
  else if id ∈ s.request_set then
    some ({ s with request_set := s.request_set.erase id }, some (.on_error id error))
  else
    some (s, none)

/-- Model of `Td::send_error_raw`. -/
def send_error_raw (s : TdState) (id : Nat) (code : Int) (message : String) :
    Option (TdState × Option CallbackEvent) :=
  send_error_impl s id ⟨code, message⟩

/-- Model of `Td::add_handler`: unconditionally appends the `(id, handler)` pair to
`result_handlers_`. -/
def add_handler (s : TdState) (id : Nat) (handler : Nat) : TdState :=
  { s with result_handlers := s.result_handlers ++ [(id, handler)] }

/-- The scan of `Td::extract_handler` over `result_handlers_`: removes and
returns the first pair keyed by `id`, leaving the rest in order. -/
def extractHandlerList : List (Nat × Nat) → Nat → Option Nat × List (Nat × Nat)
  | [], _ => (none, [])
  | (i, h) :: rest, id =>
    if i = id then (some h, rest)
    else
      let r := extractHandlerList rest id
      (r.1, (i, h) :: r.2)

/-- Model of `Td::extract_handler`. -/
def extract_handler (s : TdState) (id : Nat) : Option Nat × TdState :=
  let r := extractHandlerList s.result_handlers id
  (r.1, { s with result_handlers := r.2 })

/-- The tl constructor tag `ok_tl_constructor()` of a successful network query;
the designated high-volume class `telegram_api::upload_file` is distinguished,
every other constructor is collapsed into `other`. -/
inductive TlConstructor
  | upload_file
  | other (tag : Nat)
deriving DecidableEq, Repr

/-- The parts of a `NetQueryPtr` that `Td::on_result` inspects. -/
structure NetQuery where
  id : Nat
  is_ok : Bool
  ok_tl_constructor : TlConstructor
deriving DecidableEq, Repr

/-- What `Td::on_result` did with an incoming network response. -/
inductive OnResultOutcome
  | droppedClosing
  | updatesPath
  | ignoredNoHandler (logged : Bool)
  | handlerInvoked (handler : Nat) (ok : Bool)
deriving DecidableEq, Repr

/-- Model of `Td::on_result(NetQueryPtr)`: drops everything once `close_flag_ > 1`;
routes id 0 to the updates path (out of scope here); otherwise extracts the
handler for the id and invokes it (`ResultHandler::on_result` dispatches to
`on_result`/`on_error` by the query success flag). When no handler is found the
query is dropped, logged at warning level unless it is a successful result of
`telegram_api::upload_file`. -/
def on_result (s : TdState) (query : NetQuery) : TdState × OnResultOutcome :=
  if 1 < s.close_flag then (s, .droppedClosing)
  else if query.id = 0 then (s, .updatesPath)
  else
    let r := extract_handler s query.id
    match r.1 with
    | none =>
      (r.2, .ignoredNoHandler
        (!(query.is_ok && decide (query.ok_tl_constructor = TlConstructor.upload_file))))
    | some h => (r.2, .handlerInvoked h query.is_ok)

/-- The database-close request `Td::dec_actor_refcnt` issues at stage 3. -/
inductive DbCloseAction
  | noop
  | closeAll
  | closeAndDestroyAll
deriving DecidableEq, Repr

/-- Model of `Td::dec_actor_refcnt`: decrements `actor_refcnt_`; on reaching 0 advances
the staged teardown. Stage 2 takes a fresh self reference (`create_reference`,
re-incrementing the count) and moves to stage 3; stage 3 resets the stateful
managers (elided), hands a self reference to the store-close promise, asks the
store to close (destroying persisted state when `destroy_flag_` is set) and
moves to stage 4; stage 4 moves to stage 5, broadcasting the final closed
notification (delivery elided). -/
def dec_actor_refcnt (s : TdState) : TdState × DbCloseAction :=
  let s1 := { s with actor_refcnt := s.actor_refcnt - 1 }
  if s1.actor_refcnt = 0 then
    if s1.close_flag = 2 then
      ({ s1 with actor_refcnt := s1.actor_refcnt + 1, close_flag := 3 }, .noop)
    else if s1.close_flag = 3 then
      ({ s1 with actor_refcnt := s1.actor_refcnt + 1, close_flag := 4 },
        if s1.destroy_flag then .closeAndDestroyAll else .closeAll)
    else if s1.close_flag = 4 then
      ({ s1 with close_flag := 5 }, .noop)
    else
      (s1, .noop)
  else
    (s1, .noop)

/-- The error `Td::clear` synthesizes for a still-pending request id. -/
def closingError (destroy_flag : Bool) : TdError :=
  if destroy_flag then ⟨401, "Unauthorized"⟩
  else ⟨500, "Internal Server Error: closing"⟩

/-- The `while (!request_set_.empty())` loop of `Td::clear`: repeatedly takes
the first remaining id and answers it through `send_error_raw` (which erases it
from the set and delivers exactly when the erase succeeds), then cancels its
alarm timeout. `none` models the fatal `CHECK(id != 0)` inside
`send_error_impl`, reachable only if 0 were pending. Returns the deliveries and
the cancelled timeout ids, in processing order. -/
def clearLoop (destroy_flag : Bool) : List Nat → Option (List CallbackEvent × List Nat)
  | [] => some ([], [])
  | id :: rest =>
    if id = 0 then none
    else
      match clearLoop destroy_flag rest with
      | none => none
      | some (es, cs) =>
        some (.on_error id (closingError destroy_flag) :: es, id :: cs)

/-- Model of `Td::clear`: a no-op once `close_flag_ >= 2`; otherwise enters stage 2,
clears the result-handler table (`clear_handlers`), answers every still-pending
request id with the synthesized closing error while cancelling its alarm, and
cancels the online alarm (timeout id 0) when online. Network/session and
collaborator shutdown calls that touch no modelled field are elided. -/
def clear (s : TdState) : Option (TdState × List CallbackEvent × List Nat) :=
  if 2 ≤ s.close_flag then some (s, [], [])
  else
    let s1 := { s with close_flag := 2, result_handlers := [] }
    match clearLoop s1.destroy_flag s1.request_set with
    | none => none
    | some (es, cs) =>
      some ({ s1 with request_set := [], is_online := false },
        es, cs ++ (if s1.is_online then [0] else []))

/-- Model of `Td::dec_request_actor_refcnt`: decrements `request_actor_refcnt_`; on
reaching 0 runs `clear()` and releases the guard unit of `actor_refcnt_`
through `dec_actor_refcnt()`. -/
def dec_request_actor_refcnt (s : TdState) :
    Option (TdState × List CallbackEvent × List Nat × DbCloseAction) :=
  let s1 := { s with request_actor_refcnt := s.request_actor_refcnt - 1 }
  if s1.request_actor_refcnt = 0 then
    match clear s1 with
    | none => none
    | some (s2, es, cs) =>
      let r := dec_actor_refcnt s2
      some (r.1, es, cs, r.2)
  else
    some (s1, [], [], .noop)

/-- The externally visible effect of `Td::close_impl`. -/
inductive CloseImplAction
  | alreadyClosing
  | decryptShortCircuit (action : DbCloseAction) (db_destroyed : Bool)
  | beganClose
deriving DecidableEq, Repr

/-- Model of `Td::close_impl`: absorbs the destroy flag (`destroy_flag_ |= destroy_flag`)
and returns immediately when `close_flag_` is already non-zero. From `Decrypt`
(store never opened) it short-circuits: destroys the store files when
destroying, jumps to stage 4 and releases one `actor_refcnt_` unit. Otherwise
it enters `Close` at stage 1; dropping the live request executors, flushing the
store and the deferred self-send of `dec_request_actor_refcnt` (releasing the
request-actor guard) are elided actions summarized by `beganClose`. -/
def close_impl (s : TdState) (destroy_flag : Bool) : TdState × CloseImplAction :=
  let s1 := { s with destroy_flag := s.destroy_flag || destroy_flag }
  if s1.close_flag ≠ 0 then (s1, .alreadyClosing)
  else if s1.state = State.Decrypt then
    let s2 := { s1 with state := State.Close, close_flag := 4 }
    let r := dec_actor_refcnt s2
    (r.1, .decryptShortCircuit r.2 destroy_flag)
  else
    ({ s1 with state := State.Close, close_flag := 1 }, .beganClose)

/-- Model of `Td::close`. -/
def close (s : TdState) : TdState × CloseImplAction :=
  close_impl s false

/-- Model of `Td::destroy`. -/
def destroy (s : TdState) : TdState × CloseImplAction :=
  close_impl s true

/-- The path `Td::request` takes for an admitted or rejected call. `delivered`
is a synchronous answer through the client callback; `setParametersPath` and
`initPath` mark dispatch into `set_td_parameters` / `init` followed by
`answer_ok_query` (their internals are outside the admission gate);
`forwardedToRequestHandler` marks the `State::Run` dispatch
`downcast_call(.., on_request)` into a request executor. -/
inductive RequestAction
  | delivered (event : CallbackEvent)
  | droppedDelivery
  | setParametersPath
  | initPath (encryption_key : String)
  | closeCalled
  | destroyCalled
  | forwardedToRequestHandler
deriving DecidableEq, Repr

/-- Wraps the delivery outcome of a `send_result`/`send_error_raw` call made by
`Td::request`. -/
def actionOfEvent : Option CallbackEvent → RequestAction
  | some e => .delivered e
  | none => .droppedDelivery

/-- A `return send_error_raw(id, code, message)` made from inside
`Td::request`, packaged as the call outcome. -/
def rejectWith (s0 : TdState) (id : Nat) (code : Int) (message : String) :
    Option (TdState × RequestAction) :=
  (send_error_raw s0 id code message).map (fun r => (r.1, actionOfEvent r.2))

/-- A `return send_result(id, object)` made from inside `Td::request`,
packaged as the call outcome. -/
def resultWith (s0 : TdState) (id : Nat) (object : ApiObject) :
    Option (TdState × RequestAction) :=
  let r := send_result s0 id (some object)
  some (r.1, actionOfEvent r.2)

/-- The `State::WaitParameters` arm of the switch in `Td::request`: only the
state query and `setTdlibParameters` are admitted; the `default:` arm rejects
every other function with 401 "Initialization parameters are needed". -/
def requestWaitParameters (s0 : TdState) (id : Nat) :
    ApiFunction → Option (TdState × RequestAction)
  | .getAuthorizationState =>
    resultWith s0 id .authorizationStateWaitTdlibParameters
  | .setTdlibParameters => some (s0, .setParametersPath)
  | .checkDatabaseEncryptionKey _ =>
    rejectWith s0 id 401 "Initialization parameters are needed"
  | .setDatabaseEncryptionKey _ =>
    rejectWith s0 id 401 "Initialization parameters are needed"
  | .close => rejectWith s0 id 401 "Initialization parameters are needed"
  | .destroy => rejectWith s0 id 401 "Initialization parameters are needed"
  | .other _ => rejectWith s0 id 401 "Initialization parameters are needed"

/-- The `State::Decrypt` arm of the switch in `Td::request`: the state query,
the two key operations (falling through to `init`) and unconditional
close/destroy are admitted; the `default:` arm rejects everything else with
401 "Database encryption key is needed". -/
def requestDecrypt (s0 : TdState) (id : Nat) :
    ApiFunction → Option (TdState × RequestAction)
  | .getAuthorizationState =>
    resultWith s0 id
      (.authorizationStateWaitEncryptionKey s0.encryption_is_encrypted)
  | .setTdlibParameters =>
    rejectWith s0 id 401 "Database encryption key is needed"
  | .checkDatabaseEncryptionKey key => some (s0, .initPath key)
  | .setDatabaseEncryptionKey key => some (s0, .initPath key)
  | .close => some ((close s0).1, .closeCalled)
  | .destroy => some ((destroy s0).1, .destroyCalled)
  | .other _ => rejectWith s0 id 401 "Database encryption key is needed"

/-- The `State::Close` arm of the switch in `Td::request`: only the state
query is admitted, answered "closed" at shutdown stage 5 and "closing" before;
everything else is rejected with 401 "Unauthorized". -/
def requestClose (s0 : TdState) (id : Nat) :
    ApiFunction → Option (TdState × RequestAction)
  | .getAuthorizationState =>
    resultWith s0 id
      (if s0.close_flag = 5 then .authorizationStateClosed
       else .authorizationStateClosing)
  | .setTdlibParameters => rejectWith s0 id 401 "Unauthorized"
  | .checkDatabaseEncryptionKey _ => rejectWith s0 id 401 "Unauthorized"
  | .setDatabaseEncryptionKey _ => rejectWith s0 id 401 "Unauthorized"
  | .close => rejectWith s0 id 401 "Unauthorized"
  | .destroy => rejectWith s0 id 401 "Unauthorized"
  | .other _ => rejectWith s0 id 401 "Unauthorized"

/-- Model of `Td::request`: inserts the id into `request_set_`, rejects id 0 and null
payloads with 400-class errors before any phase dispatch, then dispatches on
the lifecycle state; `Run` forwards to the per-operation `on_request`
handlers. `none` models a fatal `CHECK` failure (reached via
`send_error_raw(0, ..)` for id 0). -/
def request (s : TdState) (id : Nat) (function : Option ApiFunction) :
    Option (TdState × RequestAction) :=
  let s0 := { s with request_set := setInsert s.request_set id }
  if id = 0 then
    rejectWith s0 id 400 "Wrong request id == 0"
  else
    match function with
    | none => rejectWith s0 id 400 "Request is empty"
    | some fn =>
      match s0.state with
      | .WaitParameters => requestWaitParameters s0 id fn
      | .Decrypt => requestDecrypt s0 id fn
      | .Close => requestClose s0 id fn
      | .Run => some (s0, .forwardedToRequestHandler)

end Td

namespace RequestActorModel

/-- The outcome of an asynchronous result channel as observed by an executor:
an unresolved future, a success value, or a failure. The reserved hangup
sentinel `Status::Hangup()` is a distinguished failure. -/
inductive TdStatus
  | hangup
  | error (code : Int) (message : String)
deriving DecidableEq, Repr

/-- State of a `FutureActor` when inspected. -/
inductive FutureState (T : Type)
  | pending
  | resolvedOk (value : T)
  | resolvedError (error : TdStatus)
deriving DecidableEq, Repr

/-- How one pass of `RequestActor<T>::loop` ends. `stoppedWithResult` performs
`do_set_result` then `do_send_result` then `stop()` (destroying the executor);
`stoppedWithError` performs `do_send_error` then `stop()`; `suspended`
subscribes to the future wake event with the recorded remaining tries. -/
inductive LoopOutcome (T : Type)
  | stoppedWithResult (value : T)
  | stoppedWithError (error : TdStatus)
  | suspended (tries_left : Int)
deriving DecidableEq, Repr

/-- Default value of `RequestActor::tries_left_`. -/
def tries_left_default : Int := 2

/-- One pass of `RequestActor<T>::loop`, given the state of the fresh future
right after `do_run` returned and the current `tries_left_`: a ready future is
terminal; an unresolved future decrements the counter, failing with the fixed
400 error when it reaches zero and suspending otherwise. -/
def loopStep {T : Type} (future : FutureState T) (tries_left : Int) : LoopOutcome T :=
  match future with
  | .resolvedError e => .stoppedWithError e
  | .resolvedOk v => .stoppedWithResult v
  | .pending =>
    if tries_left - 1 = 0 then
      .stoppedWithError (.error 400 "Requested data is unaccessible")
    else
      .suspended (tries_left - 1)

/-- Result of driving `loop` against a `do_run` that never resolves its
promise: either the executor terminated after the recorded number of
unresolved passes, or the pass budget given as fuel ran out first. -/
inductive UnresolvedRun
  | exhaustedFuel
  | terminated (passes : Nat) (error : TdStatus)
deriving DecidableEq, Repr

/-- Drives `RequestActor<Unit>::loop` for at most `fuel` passes, every pass
seeing an unresolved future. -/
def driveUnresolved : Nat → Int → UnresolvedRun
  | 0, _ => .exhaustedFuel
  | fuel + 1, tries =>
    match loopStep (FutureState.pending (T := Unit)) tries with
    | .stoppedWithError e => .terminated 1 e
    | .stoppedWithResult _ => .exhaustedFuel
    | .suspended t =>
      match driveUnresolved fuel t with
      | .terminated n e => .terminated (n + 1) e
      | .exhaustedFuel => .exhaustedFuel

/-- How `RequestActor<T>::raw_event` reacts to the wake event. -/
inductive RawEventOutcome (T : Type)
  | stoppedWithError (code : Int) (message : String)
  | resumedLoop (value : T)
deriving DecidableEq, Repr

set_option linter.unusedVariables false in
/-- Model of `RequestActor<T>::raw_event`: fires once the subscribed future has
resolved (`none` on an unresolved future, the event is only sent on
resolution). A failure equal to the hangup sentinel is classified by the
current authentication state, `td->auth_manager_ && td->auth_manager_->is_authorized()`
(the manager pointer may already be null when the façade is closing); any
other failure is forwarded verbatim to `do_send_error` and the executor stops.
A success stores the value via `do_set_result` and re-enters `loop`.
`tries_left` is part of the actor state but is never consulted here. -/
def rawEvent {T : Type} (tries_left : Int) (future : FutureState T)
    (auth_manager_present : Bool) (is_authorized_flag : Bool) :
    Option (RawEventOutcome T) :=
  match future with
  | .pending => none
  | .resolvedError .hangup =>
    if auth_manager_present && is_authorized_flag then
      some (.stoppedWithError 500 "Query can\x27t be answered due to bug in the TDLib")
    else
      some (.stoppedWithError 401 "Unauthorized")
  | .resolvedError (.error c m) => some (.stoppedWithError c m)
  | .resolvedOk v => some (.resumedLoop v)

/-- The two ways an entry into `RequestOnceActor::loop` can start. -/
inductive OnceLoopEntry
  | sendDefaultOkAndStop
  | deferToRequestActorLoop
deriving DecidableEq, Repr

/-- Model of `RequestOnceActor::loop`: when `get_tries() < 2` it sends the default "ok"
result and stops without running `do_run`; otherwise it defers to
`RequestActor::loop` (which invokes `do_run`). -/
def onceLoopEntry (tries_left : Int) : OnceLoopEntry :=
  if tries_left < 2 then .sendDefaultOkAndStop else .deferToRequestActorLoop

/-- Number of `do_run` invocations in the retry scenario for a
`RequestOnceActor` whose counter starts at `t`: the actor enters `loop`; if it
reaches `do_run` and the first pass leaves the future unresolved it suspends;
the future is then resolved with success, and `raw_event` re-enters `loop`,
whose guard decides whether `do_run` runs a second time (a reached second
`do_run` is assumed to finish synchronously). -/
def onceRetryScenarioDoRunCount (t : Int) : Nat :=
  match onceLoopEntry t with
  | .sendDefaultOkAndStop => 0
  | .deferToRequestActorLoop =>
    match loopStep (FutureState.pending (T := Unit)) t with
    | .suspended t2 =>
      match onceLoopEntry t2 with
      | .sendDefaultOkAndStop => 1
      | .deferToRequestActorLoop => 2
    | _ => 1

end RequestActorModel



/-! ## Helper lemmas -/

namespace Td

/-- The id just inserted by `Td::request` is in the pending request set. -/
theorem mem_setInsert_self (l : List Nat) (id : Nat) : id ∈ setInsert l id := by
  unfold setInsert
  split
  · assumption
  · simp

/-- On a duplicate-free pending set, an erased id is gone. -/
theorem not_mem_erase_self {l : List Nat} (hnd : l.Nodup) (id : Nat) :
    id ∉ l.erase id := by
  intro hmem
  rcases (List.Nodup.mem_erase_iff hnd).1 hmem with ⟨hne, _⟩
  exact hne rfl

/-- The answering loop of `Td::clear` delivers the synthesized closing error
once per remaining occurrence and cancels each alarm, in order. -/
theorem clearLoop_eq (d : Bool) (l : List Nat) (h : 0 ∉ l) :
    clearLoop d l =
      some (l.map (fun id => CallbackEvent.on_error id (closingError d)), l) := by
  induction l with
  | nil => rfl
  | cons x xs ih =>
    simp only [List.mem_cons, not_or] at h
    have hx : ¬(x = 0) := fun hx0 => h.1 hx0.symm
    simp [clearLoop, hx, ih h.2]

end Td

/-! ## Claim theorems -/

/-- A façade state used to instantiate witnesses on concrete inputs. -/
def sampleRunState : Td.TdState :=
  { request_set := [7, 9], result_handlers := [(42, 1)], state := .Run,
    close_flag := 0, destroy_flag := false, request_actor_refcnt := 1,
    actor_refcnt := 3, is_online := false, encryption_is_encrypted := false }

/-- The initial façade state: everything empty, lifecycle at `WaitParameters`,
both reference counts at their permanent guard unit. -/
def initialState : Td.TdState :=
  { request_set := [], result_handlers := [], state := .WaitParameters,
    close_flag := 0, destroy_flag := false, request_actor_refcnt := 1,
    actor_refcnt := 1, is_online := false, encryption_is_encrypted := false }

/-- C1: for a non-zero correlation id (the only ids `Td::request` admits, on a
duplicate-free pending set), `Td::send_result` and `Td::send_error_impl`
deliver through the callback exactly when erasing the id from the pending
request set succeeds; either delivery removes the id, so a second result or
error delivery for the same id produces no callback invocation — the id never
receives two terminal responses. -/
theorem C1_terminal_delivery_at_most_once
    (s : Td.TdState) (id : Nat) (object object2 : Option Td.ApiObject)
    (e e2 : Td.TdError) (hid : id ≠ 0) (hnd : s.request_set.Nodup) :
    ((Td.send_result s id object).2 =
      if id ∈ s.request_set then
        some (.on_result id (object.getD (.error 404 "Not Found")))
      else none) ∧
    (Td.send_result s id object).1.request_set = s.request_set.erase id ∧
    (Td.send_error_impl s id e =
      some ({ s with request_set := s.request_set.erase id },
        if id ∈ s.request_set then some (.on_error id e) else none)) ∧
    id ∉ (Td.send_result s id object).1.request_set ∧
    (Td.send_result (Td.send_result s id object).1 id object2).2 = none ∧
    Td.send_error_impl (Td.send_result s id object).1 id e2 =
      some ((Td.send_result s id object).1, none) := by
  have herase := Td.not_mem_erase_self hnd id
  by_cases hmem : id ∈ s.request_set <;>
    refine ⟨?_, ?_, ?_, ?_, ?_, ?_⟩ <;>
      simp [Td.send_result, Td.send_error_impl, hid, hmem, herase,
        List.erase_of_not_mem]

/-- C1 witness: delivering a result for pending id 7 succeeds once; the second
result delivery and a subsequent error delivery for id 7 are no-ops. -/
theorem C1_witness :
    (Td.send_result sampleRunState 7 (some .ok)).2 = some (.on_result 7 .ok) ∧
    (Td.send_result (Td.send_result sampleRunState 7 (some .ok)).1 7 (some .ok)).2 =
      none ∧
    Td.send_error_impl (Td.send_result sampleRunState 7 (some .ok)).1 7
      ⟨400, "late"⟩ =
      some ((Td.send_result sampleRunState 7 (some .ok)).1, none) := by
  have h := C1_terminal_delivery_at_most_once sampleRunState 7 (some .ok)
    (some .ok) ⟨400, "late"⟩ ⟨400, "late"⟩ (by decide) (by decide)
  exact ⟨by simpa [sampleRunState] using h.1, h.2.2.2.2.1, h.2.2.2.2.2⟩

/-- C2: on every pass of `RequestActor::loop` whose future is still unresolved
the retry counter is decremented; when it reaches zero the executor stops with
the fixed client-class 400 error (spelled "Requested data is unaccessible" in
the source), so a `do_run` that never resolves its promise terminates after
exactly `budget` unresolved passes for any budget of at least 1, the default
budget being 2. -/
theorem C2_retry_budget_exhaustion :
    RequestActorModel.tries_left_default = 2 ∧
    (∀ t : Int, t - 1 ≠ 0 →
      RequestActorModel.loopStep (RequestActorModel.FutureState.pending (T := Unit)) t =
        .suspended (t - 1)) ∧
    (∀ b : Nat, 1 ≤ b →
      RequestActorModel.driveUnresolved b (b : Int) =
        .terminated b (.error 400 "Requested data is unaccessible")) := by
  refine ⟨rfl, ?_, ?_⟩
  · intro t ht
    simp [RequestActorModel.loopStep, ht]
  · intro b hb
    induction b with
    | zero => omega
    | succ n ih =>
      rcases Nat.lt_or_ge n 1 with h1 | h1
      · have hn0 : n = 0 := by omega
        subst hn0
        rfl
      · have hn0 : n ≠ 0 := by omega
        have hcast : ((n + 1 : Nat) : Int) - 1 = (n : Int) := by
          push_cast
          ring
        simp [RequestActorModel.driveUnresolved, RequestActorModel.loopStep, hn0,
          hcast, ih h1]

/-- C2 witness: with a budget of 5 an unresolved pass suspends with 4 tries
left; with the default budget 2 the executor terminates with the fixed 400
error after exactly 2 unresolved passes. -/
theorem C2_witness :
    RequestActorModel.loopStep (RequestActorModel.FutureState.pending (T := Unit)) 5 =
      .suspended 4 ∧
    RequestActorModel.driveUnresolved 2 2 =
      .terminated 2 (.error 400 "Requested data is unaccessible") := by
  constructor
  · have h := C2_retry_budget_exhaustion.2.1 5 (by decide)
    simpa using h
  · have h := C2_retry_budget_exhaustion.2.2 2 (by decide)
    simpa using h

/-- C3 counterexample: `ChangeStickerSetRequest` (and several other
`RequestOnceActor` subclasses) raises the budget with `set_tries(3)`; after a
first suspended pass the counter is 2, the re-entry guard `get_tries() < 2`
fails, and `do_run` is invoked a second time — the re-entered loop neither
sends the default "ok" immediately nor keeps `do_run` single-shot. -/
theorem C3_counterexample :
    RequestActorModel.onceRetryScenarioDoRunCount 3 = 2 ∧
    RequestActorModel.onceLoopEntry 2 = .deferToRequestActorLoop := by
  constructor
  · rfl
  · rfl

/-- C3 (amended): the `RequestOnceActor` re-entry guard compares the retry
counter against the constant 2 (the default budget), not against the
subclass-configured budget: an entered loop sends the default "ok" and stops
without invoking `do_run` exactly when the counter is below 2. With the default
budget of 2, a resumed `RequestOnceActor` therefore never invokes `do_run`
twice; a subclass that raised the budget via `set_tries` can see `do_run` run
again on resumed passes until the counter drops below 2. -/
theorem C3_once_guard_is_default_budget :
    (∀ t : Int,
      RequestActorModel.onceLoopEntry t = .sendDefaultOkAndStop ↔ t < 2) ∧
    RequestActorModel.onceRetryScenarioDoRunCount
      RequestActorModel.tries_left_default = 1 := by
  constructor
  · intro t
    by_cases h : t < 2 <;> simp [RequestActorModel.onceLoopEntry, h]
  · rfl

/-- C3 witness: a resumed pass with the counter at 1 (default budget after one
suspension) immediately sends the default "ok" without another `do_run`. -/
theorem C3_witness :
    RequestActorModel.onceLoopEntry 1 = .sendDefaultOkAndStop :=
  (C3_once_guard_is_default_budget.1 1).2 (by decide)

/-- C4: when an executor is woken with a resolved future that failed with the
reserved hangup sentinel, the reported error depends only on the current
authentication state (`td->auth_manager_ && td->auth_manager_->is_authorized()`):
authenticated sessions get the fixed 500-class internal-bug error, all others
get 401 "Unauthorized"; the outcome is independent of the prior loop state
(the retry counter), and any other error is propagated verbatim. -/
theorem C4_hangup_classification :
    (∀ (tries : Int) (p a : Bool),
      RequestActorModel.rawEvent (T := Unit) tries (.resolvedError .hangup) p a =
        some (if p && a then
          .stoppedWithError 500 "Query can\x27t be answered due to bug in the TDLib"
        else .stoppedWithError 401 "Unauthorized")) ∧
    (∀ (tries : Int) (p a : Bool) (c : Int) (m : String),
      RequestActorModel.rawEvent (T := Unit) tries (.resolvedError (.error c m)) p a =
        some (.stoppedWithError c m)) ∧
    (∀ (t1 t2 : Int) (f : RequestActorModel.FutureState Unit) (p a : Bool),
      RequestActorModel.rawEvent t1 f p a = RequestActorModel.rawEvent t2 f p a) := by
  refine ⟨?_, ?_, ?_⟩
  · intro tries p a
    by_cases h : p && a <;> simp [RequestActorModel.rawEvent, h]
  · intro tries p a c m
    rfl
  · intro t1 t2 f p a
    rfl

/-- Specification of `Td::dec_request_actor_refcnt` when the request-actor
count drops to zero before `clear()` has run: every pending id is answered
with the synthesized closing error, alarms are cancelled, the handler table and
pending set are emptied, stage 2 is entered and one unit of `actor_refcnt_`
(the guard) is released. Shared by the C5 and C10 theorems. -/
theorem dec_request_actor_refcnt_spec
    (s : Td.TdState)
    (hreq : s.request_actor_refcnt = 1)
    (hflag : s.close_flag ≤ 1)
    (h0 : 0 ∉ s.request_set)
    (hactor : s.actor_refcnt ≠ 1) :
    Td.dec_request_actor_refcnt s =
      some ({ s with
          request_actor_refcnt := 0, close_flag := 2,
          result_handlers := [], request_set := [], is_online := false,
          actor_refcnt := s.actor_refcnt - 1 },
        s.request_set.map
          (fun id => .on_error id (Td.closingError s.destroy_flag)),
        s.request_set ++ (if s.is_online then [0] else []),
        .noop) := by
  have hflag2 : ¬(2 ≤ s.close_flag) := by omega
  have hactor0 : ¬(s.actor_refcnt - 1 = 0) := by
    intro h
    exact hactor (by omega)
  simp [Td.dec_request_actor_refcnt, Td.clear, Td.dec_actor_refcnt, hreq,
    hflag2, hactor0, Td.clearLoop_eq _ _ h0]

/-- C5: when `request_actor_refcnt_` reaches 0 during shutdown (before
`clear()` has run), every correlation id still in the pending request set is
answered with exactly one synthesized terminal error — 401 "Unauthorized" when
the shutdown is a destroy, 500 "Internal Server Error: closing" otherwise —
each such id has its alarm timeout cancelled, the pending set is left empty,
and the guard unit of `actor_refcnt_` is released. -/
theorem C5_refcnt_zero_answers_pending
    (s : Td.TdState)
    (hreq : s.request_actor_refcnt = 1)
    (hflag : s.close_flag ≤ 1)
    (h0 : 0 ∉ s.request_set)
    (hnd : s.request_set.Nodup)
    (hactor : s.actor_refcnt ≠ 1) :
    Td.dec_request_actor_refcnt s =
      some ({ s with
          request_actor_refcnt := 0, close_flag := 2,
          result_handlers := [], request_set := [], is_online := false,
          actor_refcnt := s.actor_refcnt - 1 },
        s.request_set.map
          (fun id => .on_error id (Td.closingError s.destroy_flag)),
        s.request_set ++ (if s.is_online then [0] else []),
        .noop) ∧
    (∀ id ∈ s.request_set,
      (s.request_set.map
        (fun i => Td.CallbackEvent.on_error i (Td.closingError s.destroy_flag))).count
          (.on_error id (Td.closingError s.destroy_flag)) = 1) ∧
    Td.closingError true = ⟨401, "Unauthorized"⟩ ∧
    Td.closingError false = ⟨500, "Internal Server Error: closing"⟩ := by
  refine ⟨dec_request_actor_refcnt_spec s hreq hflag h0 hactor, ?_, rfl, rfl⟩
  intro id hid
  have hinj : Function.Injective
      (fun i => Td.CallbackEvent.on_error i (Td.closingError s.destroy_flag)) := by
    intro a b hab
    simpa using hab
  rw [List.count_map_of_injective _ _ hinj]
  exact List.count_eq_one_of_mem hnd hid

/-- C5 witness: a closing (non-destroy) façade at stage 1 with pending ids 7
and 9 answers both with 500 "Internal Server Error: closing" and releases the
actor-refcount guard. -/
theorem C5_witness :
    Td.dec_request_actor_refcnt
      { sampleRunState with state := .Close, close_flag := 1 } =
      some ({ sampleRunState with
          state := .Close, request_actor_refcnt := 0, close_flag := 2,
          result_handlers := [], request_set := [], is_online := false,
          actor_refcnt := 2 },
        [.on_error 7 ⟨500, "Internal Server Error: closing"⟩,
         .on_error 9 ⟨500, "Internal Server Error: closing"⟩],
        [7, 9],
        .noop) := by
  have h := (C5_refcnt_zero_answers_pending
    { sampleRunState with state := .Close, close_flag := 1 }
    (by decide) (by decide) (by decide) (by decide) (by decide)).1
  simpa [sampleRunState, Td.closingError] using h

/-- C10: invoking `destroy()` after shutdown has begun (`close_flag_` non-zero)
only absorbs the destroy flag — `destroy_flag_` becomes true and nothing else
changes, no shutdown stage is re-entered — and the teardown already in progress
then behaves as a destroy: when the scheduled request-actor guard release runs,
pending ids are answered with 401 "Unauthorized", and the stage-3 store close
marks persisted state for erasure (`close_and_destroy_all`). -/
theorem C10_destroy_after_close_absorbed :
    (∀ s : Td.TdState, s.close_flag ≠ 0 →
      Td.close_impl s true = ({ s with destroy_flag := true }, .alreadyClosing)) ∧
    (∀ s : Td.TdState,
      s.close_flag = 1 → s.request_actor_refcnt = 1 → 0 ∉ s.request_set →
      s.actor_refcnt ≠ 1 →
      Td.dec_request_actor_refcnt (Td.close_impl s true).1 =
        some ({ s with
            destroy_flag := true, request_actor_refcnt := 0, close_flag := 2,
            result_handlers := [], request_set := [], is_online := false,
            actor_refcnt := s.actor_refcnt - 1 },
          s.request_set.map (fun id => .on_error id ⟨401, "Unauthorized"⟩),
          s.request_set ++ (if s.is_online then [0] else []),
          .noop)) ∧
    (∀ s : Td.TdState,
      s.close_flag = 3 → s.destroy_flag = true → s.actor_refcnt = 1 →
      (Td.dec_actor_refcnt s).2 = .closeAndDestroyAll) := by
  refine ⟨?_, ?_, ?_⟩
  · intro s h
    simp [Td.close_impl, h]
  · intro s hflag hreq h0 hactor
    have hframe : Td.close_impl s true = ({ s with destroy_flag := true }, .alreadyClosing) := by
      simp [Td.close_impl, hflag]
    rw [hframe]
    have h := dec_request_actor_refcnt_spec { s with destroy_flag := true }
      hreq (by simpa using Nat.le_of_eq hflag) h0 hactor
    simpa [Td.closingError] using h
  · intro s hflag hdestroy hactor
    simp [Td.dec_actor_refcnt, hflag, hdestroy, hactor]

/-- C10 witness: calling `destroy()` on a façade already at stage 1 only sets
the destroy flag; the pending ids 7 and 9 are then answered with 401 when the
request-actor guard is released, and the stage-3 store close erases state. -/
theorem C10_witness :
    Td.close_impl { sampleRunState with state := .Close, close_flag := 1 } true =
      ({ sampleRunState with
          state := .Close, close_flag := 1, destroy_flag := true },
        .alreadyClosing) ∧
    Td.dec_request_actor_refcnt
      (Td.close_impl { sampleRunState with state := .Close, close_flag := 1 } true).1 =
      some ({ sampleRunState with
          state := .Close, destroy_flag := true, request_actor_refcnt := 0,
          close_flag := 2, result_handlers := [], request_set := [],
          is_online := false, actor_refcnt := 2 },
        [.on_error 7 ⟨401, "Unauthorized"⟩, .on_error 9 ⟨401, "Unauthorized"⟩],
        [7, 9],
        .noop) ∧
    (Td.dec_actor_refcnt { sampleRunState with
        state := .Close, close_flag := 3, destroy_flag := true,
        actor_refcnt := 1 }).2 = .closeAndDestroyAll := by
  refine ⟨?_, ?_, ?_⟩
  · have h := C10_destroy_after_close_absorbed.1
      { sampleRunState with state := .Close, close_flag := 1 } (by decide)
    simpa [sampleRunState] using h
  · have h := C10_destroy_after_close_absorbed.2.1
      { sampleRunState with state := .Close, close_flag := 1 }
      (by decide) (by decide) (by decide) (by decide)
    simpa [sampleRunState] using h
  · exact C10_destroy_after_close_absorbed.2.2 _ (by decide) (by decide) (by decide)

/-- C6: for a non-zero id with a non-null payload, the admission gate enforces
the lifecycle phase: in `WaitParameters` every operation other than
`getAuthorizationState` and `setTdlibParameters` is answered with the 401
"Initialization parameters are needed" error, reaching no executor; in `Close`
only `getAuthorizationState` is admitted — answered "closed" when the shutdown
stage is 5 and "closing" otherwise — and every other operation is answered
with 401 "Unauthorized". -/
theorem C6_gate_phase_enforcement :
    (∀ (s : Td.TdState) (id : Nat) (f : Td.ApiFunction),
      id ≠ 0 → s.state = .WaitParameters →
      f ≠ .getAuthorizationState → f ≠ .setTdlibParameters →
      (Td.request s id (some f)).map Prod.snd =
        some (.delivered
          (.on_error id ⟨401, "Initialization parameters are needed"⟩))) ∧
    (∀ (s : Td.TdState) (id : Nat),
      id ≠ 0 → s.state = .Close →
      (Td.request s id (some .getAuthorizationState)).map Prod.snd =
        some (.delivered (.on_result id
          (if s.close_flag = 5 then .authorizationStateClosed
           else .authorizationStateClosing)))) ∧
    (∀ (s : Td.TdState) (id : Nat) (f : Td.ApiFunction),
      id ≠ 0 → s.state = .Close → f ≠ .getAuthorizationState →
      (Td.request s id (some f)).map Prod.snd =
        some (.delivered (.on_error id ⟨401, "Unauthorized"⟩))) := by
  refine ⟨?_, ?_, ?_⟩
  · intro s id f hid hstate h1 h2
    cases f <;> first
      | exact absurd rfl h1
      | exact absurd rfl h2
      | simp [Td.request, Td.requestWaitParameters, hstate, Td.rejectWith,
          Td.send_error_raw, Td.send_error_impl, hid, Td.mem_setInsert_self,
          Td.actionOfEvent]
  · intro s id hid hstate
    by_cases h5 : s.close_flag = 5 <;>
      simp [Td.request, Td.requestClose, hstate, Td.resultWith, Td.send_result,
        hid, Td.mem_setInsert_self, Td.actionOfEvent, h5]
  · intro s id f hid hstate h1
    cases f <;> first
      | exact absurd rfl h1
      | simp [Td.request, Td.requestClose, hstate, Td.rejectWith,
          Td.send_error_raw, Td.send_error_impl, hid, Td.mem_setInsert_self,
          Td.actionOfEvent]

/-- C6 witness: in `WaitParameters` a `close` call on id 7 is rejected with
the 401 initialization error; in `Close` at stage 5 a state query on id 7 is
answered "closed" and a `setTdlibParameters` call is rejected with 401. -/
theorem C6_witness :
    (Td.request initialState 7 (some .close)).map Prod.snd =
      some (.delivered
        (.on_error 7 ⟨401, "Initialization parameters are needed"⟩)) ∧
    (Td.request { initialState with state := .Close, close_flag := 5 } 7
        (some .getAuthorizationState)).map Prod.snd =
      some (.delivered (.on_result 7 .authorizationStateClosed)) ∧
    (Td.request { initialState with state := .Close, close_flag := 5 } 7
        (some .setTdlibParameters)).map Prod.snd =
      some (.delivered (.on_error 7 ⟨401, "Unauthorized"⟩)) := by
  refine ⟨?_, ?_, ?_⟩
  · exact C6_gate_phase_enforcement.1 initialState 7 .close
      (by decide) rfl (by decide) (by decide)
  · have h := C6_gate_phase_enforcement.2.1
      { initialState with state := .Close, close_flag := 5 } 7 (by decide) rfl
    simpa [initialState] using h
  · exact C6_gate_phase_enforcement.2.2
      { initialState with state := .Close, close_flag := 5 } 7
      .setTdlibParameters (by decide) rfl (by decide)

/-- C8 (code bug): `Td::request` checks the zero id and the null payload before
any phase dispatch, but the zero-id path calls `send_error_raw(0, 400, ..)`,
which trips the fatal `CHECK(id != 0)` in `Td::send_error_impl` (modelled as
`none`) instead of delivering the claimed 400 error; the null-payload path does
deliver its 400 "Request is empty" error. -/
theorem C8_zero_id_trips_fatal_check :
    Td.request initialState 0 (some .getAuthorizationState) = none ∧
    Td.request initialState 0 none = none ∧
    (Td.request initialState 3 none).map Prod.snd =
      some (.delivered (.on_error 3 ⟨400, "Request is empty"⟩)) := by
  refine ⟨rfl, rfl, rfl⟩

/-- When no registration for `id` is live, the `Td::extract_handler` scan
finds nothing and leaves the table unchanged. -/
theorem extractHandlerList_not_mem (l : List (Nat × Nat)) (id : Nat)
    (h : ∀ p ∈ l, p.1 ≠ id) :
    Td.extractHandlerList l id = (none, l) := by
  induction l with
  | nil => rfl
  | cons x xs ih =>
    have hx : x.1 ≠ id := h x (by simp)
    have hxs : ∀ p ∈ xs, p.1 ≠ id := fun p hp => h p (by simp [hp])
    cases x with
    | mk i hdl =>
      simp only [Td.extractHandlerList, ih hxs]
      simp at hx
      simp [hx]

/-- When at most one registration for `id` is live and `(id, hdl)` is among
them, the `Td::extract_handler` scan returns `hdl` and the remaining table has
no registration for `id`. -/
theorem extractHandlerList_unique (l : List (Nat × Nat)) (id hdl : Nat)
    (hmem : (id, hdl) ∈ l)
    (hcount : l.countP (fun p => decide (p.1 = id)) ≤ 1) :
    (Td.extractHandlerList l id).1 = some hdl ∧
    ∀ p ∈ (Td.extractHandlerList l id).2, p.1 ≠ id := by
  induction l with
  | nil => simp at hmem
  | cons x xs ih =>
    obtain ⟨i, h⟩ := x
    by_cases hi : i = id
    · have hcons : List.countP (fun p => decide (p.1 = id)) ((i, h) :: xs) =
          List.countP (fun p => decide (p.1 = id)) xs + 1 := by
        simp [List.countP_cons, hi]
      have hzero : List.countP (fun p => decide (p.1 = id)) xs = 0 := by omega
      have hrest : ∀ p ∈ xs, p.1 ≠ id := by
        intro p hp
        simpa using List.countP_eq_zero.1 hzero p hp
      have hh : h = hdl := by
        rcases List.mem_cons.1 hmem with heq | hmemxs
        · rw [hi] at heq
          injection heq with h1 h2
          exact h2.symm
        · exact absurd rfl (hrest _ hmemxs)
      have hred : Td.extractHandlerList ((i, h) :: xs) id = (some h, xs) := by
        simp [Td.extractHandlerList, hi]
      rw [hred, hh]
      exact ⟨rfl, hrest⟩
    · have hmemxs : (id, hdl) ∈ xs := by
        rcases List.mem_cons.1 hmem with heq | hmemxs
        · injection heq with h1 h2
          exact absurd h1.symm hi
        · exact hmemxs
      have hcons : List.countP (fun p => decide (p.1 = id)) ((i, h) :: xs) =
          List.countP (fun p => decide (p.1 = id)) xs := by
        simp [List.countP_cons, hi]
      have hih := ih hmemxs (by omega)
      have hred : Td.extractHandlerList ((i, h) :: xs) id =
          ((Td.extractHandlerList xs id).1,
            (i, h) :: (Td.extractHandlerList xs id).2) := by
        simp [Td.extractHandlerList, hi]
      rw [hred]
      refine ⟨hih.1, ?_⟩
      intro p hp
      rcases List.mem_cons.1 hp with heq | hp2
      · rw [heq]
        simpa using hi
      · exact hih.2 p hp2

/-- C7: while the façade is not yet draining (`close_flag_ <= 1`), delivering a
response for a registered id extracts and removes its handler and invokes it
(on_result or on_error, by the success discriminant) exactly once; a second
delivery for the same id finds no handler and is a no-op, logged as an anomaly
exactly when it is not a successful result of `telegram_api::upload_file`. -/
theorem C7_dispatch_exactness
    (s : Td.TdState) (q q2 : Td.NetQuery) (hdl : Nat)
    (hflag : s.close_flag ≤ 1)
    (hid : q.id ≠ 0)
    (hmem : (q.id, hdl) ∈ s.result_handlers)
    (hcount : s.result_handlers.countP (fun p => decide (p.1 = q.id)) ≤ 1)
    (hq2 : q2.id = q.id) :
    Td.on_result s q = ({ s with
        result_handlers := (Td.extractHandlerList s.result_handlers q.id).2 },
      .handlerInvoked hdl q.is_ok) ∧
    Td.on_result (Td.on_result s q).1 q2 = ((Td.on_result s q).1,
      .ignoredNoHandler
        (!(q2.is_ok && decide (q2.ok_tl_constructor = .upload_file)))) := by
  have hflag2 : ¬(1 < s.close_flag) := by omega
  have hu := extractHandlerList_unique s.result_handlers q.id hdl hmem hcount
  have hfirst : Td.on_result s q = ({ s with
      result_handlers := (Td.extractHandlerList s.result_handlers q.id).2 },
    .handlerInvoked hdl q.is_ok) := by
    simp [Td.on_result, Td.extract_handler, hflag2, hid, hu.1]
  refine ⟨hfirst, ?_⟩
  rw [hfirst]
  have hnone : Td.extractHandlerList
      (Td.extractHandlerList s.result_handlers q.id).2 q.id =
      (none, (Td.extractHandlerList s.result_handlers q.id).2) := by
    apply extractHandlerList_not_mem
    intro p hp
    exact hu.2 p hp
  simp [Td.on_result, Td.extract_handler, hflag2, hq2, hid, hnone]

/-- C7 witness: with handler 1 registered for id 42, delivering a failed
response for 42 invokes the handler (routed to `on_error`); a second,
successful non-upload delivery for 42 is a no-op and is logged. -/
theorem C7_witness :
    Td.on_result sampleRunState ⟨42, false, .other 5⟩ =
      ({ sampleRunState with result_handlers := [] },
        .handlerInvoked 1 false) ∧
    Td.on_result (Td.on_result sampleRunState ⟨42, false, .other 5⟩).1
        ⟨42, true, .other 5⟩ =
      ((Td.on_result sampleRunState ⟨42, false, .other 5⟩).1,
        .ignoredNoHandler true) := by
  have h := C7_dispatch_exactness sampleRunState ⟨42, false, .other 5⟩
    ⟨42, true, .other 5⟩ 1 (by decide) (by decide) (by decide) (by decide) rfl
  exact ⟨by simpa [sampleRunState] using h.1, by simpa using h.2⟩

/-- C9 counterexample: `Td::add_handler` has no precondition — registering a
second handler for id 42 while one is live succeeds and leaves two live
registrations for 42 in the dispatch table. -/
theorem C9_counterexample :
    ((Td.add_handler (Td.add_handler initialState 42 1) 42 2).result_handlers.countP
      (fun p => decide (p.1 = 42))) = 2 ∧
    (Td.add_handler (Td.add_handler initialState 42 1) 42 2).result_handlers =
      [(42, 1), (42, 2)] := by
  exact ⟨rfl, rfl⟩

/-- C9 (amended): `Td::add_handler` appends unconditionally, with no
precondition check against a live registration for the same id; at-most-one
live registration per id is preserved only because callers register fresh
query ids (`ResultHandler::send_query` uses the id of the query it has just
created): registering an id with no live registration leaves exactly one. -/
theorem C9_add_handler_appends_unconditionally :
    (∀ (s : Td.TdState) (id hdl : Nat),
      Td.add_handler s id hdl =
        { s with result_handlers := s.result_handlers ++ [(id, hdl)] }) ∧
    (∀ (s : Td.TdState) (id hdl : Nat),
      s.result_handlers.countP (fun p => decide (p.1 = id)) = 0 →
      (Td.add_handler s id hdl).result_handlers.countP
        (fun p => decide (p.1 = id)) = 1) := by
  refine ⟨fun s id hdl => rfl, ?_⟩
  intro s id hdl h0
  simp [Td.add_handler, List.countP_append, h0]

/-- C9 witness: registering handler 1 for the fresh id 42 in the initial state
leaves exactly one live registration for 42. -/
theorem C9_witness :
    (Td.add_handler initialState 42 1).result_handlers.countP
      (fun p => decide (p.1 = 42)) = 1 :=
  C9_add_handler_appends_unconditionally.2 initialState 42 1 (by decide)
